import Mathlib

/-!
Shallow embedding of the multi-tenant hotel-website CMS backend
(Express + Mongoose, TypeScript) and proofs about its authorization
gates, tenant lifecycle, embedded-document CRUD and file cleanup.

Modelling conventions:
* Mongo ObjectIds are natural numbers; document stores are association
  lists searched with List.find?, mirroring findById / findOne.
* Saving a loaded-and-mutated document is modelled by mapping an
  id-preserving update over the store (the only commit point is save,
  so a thrown error leaves the store unchanged).
* External collaborators (bcrypt, jsonwebtoken, the file system) are
  modelled at their interface boundary: password comparison is equality
  with the stored credential, token verification is an oracle function
  passed as an argument, and the file system is a list of existing
  paths plus a list of paths whose unlink raises.
* Timestamps (createdAt, lastLogin) and response sorting are not
  modelled; no claim observes them.
-/

abbrev DocId := Nat

inductive Role where
  | super_admin
  | admin
deriving DecidableEq, Repr

/-- Operational error thrown by controllers: message plus HTTP status code
(400 validation, 401 unauthenticated, 403 forbidden, 404 not found). -/
structure CustomError where
  message : String
  statusCode : Nat
deriving DecidableEq, Repr

-- ========================
-- Identity (User) model
-- ========================

/-- User document (src/models/User.ts). Timestamp fields and the
password-reset / email-verification tokens are omitted: no modelled
operation or claim reads them. -/
structure User where
  id : DocId
  email : String
  password : String
  role : Role
  name : String
  avatar : Option String := none
  websiteId : Option DocId := none
  websiteAccess : List DocId := []
  isActive : Bool := true
deriving DecidableEq, Repr

def findUser (db : List User) (i : DocId) : Option User :=
  db.find? (fun u => u.id == i)

def findUserByEmail (db : List User) (email : String) : Option User :=
  db.find? (fun u => u.email == email)

/-- Persisting a mutation of the user with the given id (user.save /
findByIdAndUpdate). -/
def updateUsers (db : List User) (i : DocId) (f : User → User) : List User :=
  db.map (fun u => if u.id = i then f u else u)

/-- bcrypt comparison, external collaborator modelled at its boundary:
the stored credential matches exactly the candidate it was derived from. -/
def comparePassword (u : User) (candidate : String) : Bool :=
  u.password == candidate

-- ========================
-- Tenant (Website) model
-- ========================

structure Coordinates where
  lat : Int
  lng : Int
deriving DecidableEq, Repr

structure ContactInfo where
  phone : String
  email : String
  address : String
  coordinates : Coordinates
deriving DecidableEq, Repr

structure SocialLinks where
  facebook : Option String := none
  twitter : Option String := none
  instagram : Option String := none
  linkedin : Option String := none
deriving DecidableEq, Repr

structure HotelImages where
  banner : String
  logo : String
  gallery : List String
deriving DecidableEq, Repr

structure PlaceLink where
  name : String
  distance : String
  kind : String
deriving DecidableEq, Repr

structure HotelInfo where
  title : String
  description : String
  contact : ContactInfo
  socialLinks : SocialLinks
  images : HotelImages
  amenities : List String
  nearbyAttractions : List PlaceLink
  transportLinks : List PlaceLink
deriving DecidableEq, Repr

structure Room where
  id : DocId
  name : String
  description : String
  maxOccupancy : Nat
  bedType : String
  size : Nat
  basePrice : Int
  mainImage : String
  discountPercentage : String
  discountPrice : Int
  detailImages : List String
  images : List String
  amenities : List String
  features : List String
  servicesIncluded : List String
  popularFacilities : List String
  isAvailable : Bool
deriving DecidableEq, Repr

/-- The eight page kinds of the hero-section enum. -/
inductive HeroPage where
  | home
  | facilities
  | about
  | contact
  | room
  | roomdetails
  | location
  | dining
deriving DecidableEq, Repr

structure HeroSection where
  id : DocId
  page : HeroPage
  image : String
  text : String
  subText : String
  detailsText : String
  isActive : Bool
deriving DecidableEq, Repr

structure OurStory where
  title : String
  subTitle : String
  percentage : String
  suites : String
  images : List String
deriving DecidableEq, Repr

structure Facility where
  id : DocId
  image : String
  title : String
  subTitle : String
deriving DecidableEq, Repr

structure Review where
  id : DocId
  avatar : String
  name : String
  review : String
  rating : ℚ
deriving DecidableEq, Repr

structure Offer where
  id : DocId
  title : String
  subtitle : String
  offer_available : Bool
  offer_percentage : Int
  offer_image : String
deriving DecidableEq, Repr

structure SiteSettings where
  logo : String
  footerLogo : String
  footerDescription : String
deriving DecidableEq, Repr

structure SiteConfig where
  language : String
  currency : String
  timezone : String
deriving DecidableEq, Repr

structure Seo where
  title : String
  description : String
  keywords : List String
deriving DecidableEq, Repr

/-- Website aggregate document (src/models, WebsiteSchema). The offer
subdocument has no schema-level default, so it is an Option: absent
until an offer is explicitly stored. -/
structure Website where
  id : DocId
  uniqueId : String
  name : String
  domain : String
  subdomain : Option String := none
  theme : String := "default"
  hotelInfo : HotelInfo
  rooms : List Room := []
  heroSections : List HeroSection := []
  ourStory : OurStory
  facilities : List Facility := []
  reviews : List Review := []
  offer : Option Offer := none
  siteSettings : SiteSettings
  settings : SiteConfig
  seo : Seo
  isActive : Bool := true
  assignedAdmin : Option DocId := none
deriving DecidableEq, Repr

def findWebsite (db : List Website) (i : DocId) : Option Website :=
  db.find? (fun w => w.id == i)

def findWebsiteByDomain (db : List Website) (domain : String) : Option Website :=
  db.find? (fun w => w.domain == domain)

/-- Persisting a mutation of the website with the given id (website.save). -/
def updateWebsites (db : List Website) (i : DocId) (f : Website → Website) : List Website :=
  db.map (fun w => if w.id = i then f w else w)

-- ========================
-- Middleware (src/middleware/auth.ts)
-- ========================

/-- Character-level startsWith (the built-in String.startsWith does not
reduce in the kernel). -/
def strStartsWith (s p : String) : Bool :=
  p.data.isPrefixOf s.data

def splitOnSpaceAux : List Char → List Char → List (List Char)
  | [], acc => [acc.reverse]
  | c :: cs, acc =>
    if c = ' ' then acc.reverse :: splitOnSpaceAux cs []
    else splitOnSpaceAux cs (c :: acc)

/-- Character-level model of the JavaScript split on a single space. -/
def splitOnSpace (s : String) : List String :=
  (splitOnSpaceAux s.data []).map String.mk

/-- Character-level drop of the first n characters of a string. -/
def strDrop (s : String) (n : Nat) : String :=
  String.mk (s.data.drop n)

/-- Result of a middleware gate: either hand the request on (next) with
attached context, or halt with an HTTP status and message. -/
inductive GateResult where
  | next
  | halt (status : Nat) (message : String)
deriving DecidableEq, Repr

/-- Verified JWT payload (interface JwtPayload). -/
structure JwtPayload where
  userId : DocId
  role : Role
  websiteId : Option DocId := none
deriving DecidableEq, Repr

/-- Outcome of jwt.verify, an external collaborator: a valid payload, an
expiry failure, or any other verification failure. -/
inductive VerifyOutcome where
  | payload (p : JwtPayload)
  | expired
  | malformed
deriving DecidableEq, Repr

/-- Outcome of the authenticate middleware: halt with a status, or pass
the request on with the attached user, userId and effective websiteId. -/
inductive AuthResult where
  | success (user : User) (userId : DocId) (websiteId : Option DocId)
  | halt (status : Nat) (message : String)
deriving DecidableEq, Repr

/-- The authenticate middleware. `verify` abstracts jwt.verify. The
effective websiteId attached to the request is the token claim, falling
back to the identity's assigned website. -/
def authenticate (db : List User) (authHeader : Option String)
    (verify : String → VerifyOutcome) : AuthResult :=
  match authHeader with
  | none => .halt 401 "Access token is required"
  | some h =>
    if ¬ strStartsWith h "Bearer " then .halt 401 "Access token is required"
    else
      match (splitOnSpace h).get? 1 with
      | none => .halt 401 "Access token is required"
      | some token =>
        if token = "" then .halt 401 "Access token is required"
        else
          match verify token with
          | .expired => .halt 401 "Token has expired"
          | .malformed => .halt 401 "Invalid token"
          | .payload decoded =>
            match findUser db decoded.userId with
            | none => .halt 401 "User not found"
            | some user =>
              if user.isActive = false then .halt 403 "User account is deactivated"
              else
                .success user decoded.userId
                  (match decoded.websiteId with
                   | some w => some w
                   | none => user.websiteId)

/-- Target tenant id resolution in checkWebsiteAccess:
req.params.websiteId, then req.params.id, then req.body.websiteId. -/
def resolveTargetWebsiteId (paramsWebsiteId paramsId bodyWebsiteId : Option DocId) :
    Option DocId :=
  match paramsWebsiteId with
  | some w => some w
  | none =>
    match paramsId with
    | some w => some w
    | none => bodyWebsiteId

/-- The checkWebsiteAccess middleware: tenant-scope check over the
attached request user and the resolved target website id. -/
def checkWebsiteAccess (user : Option User) (websiteId : Option DocId)
    (db : List Website) : GateResult :=
  match user with
  | none => .halt 401 "Authentication required"
  | some u =>
    if u.role = Role.super_admin then .next
    else
      match websiteId with
      | none => .next
      | some wid =>
        match findWebsite db wid with
        | none => .halt 404 "Website not found"
        | some website =>
          match website.assignedAdmin with
          | some aid => if aid = u.id then .next else .halt 403 "You do not have access to this website"
          | none => .halt 403 "You do not have access to this website"

-- ========================
-- Auth controller (login)
-- ========================

/-- Payload of the issued token pair; signing is external, so the pair is
modelled by the claims it carries. -/
structure TokenPair where
  userId : DocId
  role : Role
  websiteId : Option DocId
deriving DecidableEq, Repr

/-- The login controller. Persistence of refreshToken and lastLogin is
omitted (no claim observes them); the returned value carries the token
pair issued on success. -/
def login (db : List User) (email password : String) :
    Except CustomError TokenPair :=
  match findUserByEmail db email with
  | none => .error ⟨"Invalid email or password", 401⟩
  | some user =>
    if user.isActive = false then .error ⟨"Your account has been deactivated", 403⟩
    else if comparePassword user password = false then .error ⟨"Invalid email or password", 401⟩
    else if user.role = Role.admin ∧ user.websiteId = none then
      .error ⟨"Your account is not assigned to any website. Please contact the super admin.", 403⟩
    else .ok { userId := user.id, role := user.role, websiteId := user.websiteId }

-- ========================
-- Website controller: lifecycle
-- ========================

structure CreateWebsitePayload where
  name : String
  domain : String
  subdomain : Option String := none
  theme : Option String := none
  settings : Option SiteConfig := none
  seo : Option Seo := none
deriving DecidableEq, Repr

/-- Schema default for the settings object. -/
def defaultSiteConfig : SiteConfig :=
  { language := "en", currency := "USD", timezone := "UTC" }

/-- Schema default for the seo object. -/
def defaultSeo : Seo :=
  { title := "", description := "", keywords := [] }

/-- The createWebsite controller: reject a duplicate domain, otherwise
create the aggregate with the explicit empty containers the source
passes to Website.create. The offer field is not passed and has no
schema default, so the created document carries none. `freshId` and
`freshUniqueId` stand for the generated ObjectId and uuid. -/
def createWebsite (db : List Website) (p : CreateWebsitePayload)
    (freshId : DocId) (freshUniqueId : String) :
    Except CustomError (List Website × Website) :=
  match findWebsiteByDomain db p.domain with
  | some _ => .error ⟨"Website with this domain already exists", 400⟩
  | none =>
    let w : Website := {
      id := freshId
      uniqueId := freshUniqueId
      name := p.name
      domain := p.domain
      subdomain := p.subdomain
      theme := p.theme.getD "default"
      hotelInfo := {
        title := "Welcome to " ++ p.name
        description := ""
        contact := { phone := "", email := "", address := "",
                     coordinates := { lat := 0, lng := 0 } }
        socialLinks := {}
        images := { banner := "", logo := "", gallery := [] }
        amenities := []
        nearbyAttractions := []
        transportLinks := [] }
      rooms := []
      heroSections := []
      ourStory := { title := "", subTitle := "", percentage := "", suites := "", images := [] }
      facilities := []
      reviews := []
      offer := none
      siteSettings := { logo := "", footerLogo := "", footerDescription := "" }
      settings := p.settings.getD defaultSiteConfig
      seo := p.seo.getD defaultSeo
      isActive := true
      assignedAdmin := none }
    .ok (db ++ [w], w)

/-- The getWebsite controller: findById, 404 when absent. -/
def getWebsite (db : List Website) (i : DocId) : Except CustomError Website :=
  match findWebsite db i with
  | none => .error ⟨"Website not found", 404⟩
  | some w => .ok w

/-- The new admin's side of the assignment: set the back-reference and
extend the access set (admin.websiteId = website._id; push into
websiteAccess unless already present). -/
def assignUserUpdate (wid : DocId) (a : User) : User :=
  { a with
    websiteId := some wid
    websiteAccess :=
      if wid ∈ a.websiteAccess then a.websiteAccess
      else a.websiteAccess ++ [wid] }

/-- The website's side of the assignment. -/
def assignWebsiteUpdate (aid : DocId) (w : Website) : Website :=
  { w with assignedAdmin := some aid }

/-- The assignAdmin controller. With an adminId: validate the user exists
and has admin role, then set both sides of the reference (the previous
admin, if any, is left untouched). Without an adminId: clear the
assignment and the previous admin's back-references. -/
def assignAdmin (udb : List User) (wdb : List Website)
    (websiteId : DocId) (adminId : Option DocId) :
    Except CustomError (List User × List Website) :=
  match findWebsite wdb websiteId with
  | none => .error ⟨"Website not found", 404⟩
  | some website =>
    match adminId with
    | some aid =>
      match findUser udb aid with
      | none => .error ⟨"Admin user not found", 404⟩
      | some admin =>
        if admin.role ≠ Role.admin then
          .error ⟨"User must have admin role to be assigned to a website", 400⟩
        else
          .ok (updateUsers udb aid (assignUserUpdate website.id),
               updateWebsites wdb websiteId (assignWebsiteUpdate aid))
    | none =>
      let udb1 :=
        match website.assignedAdmin with
        | some previousAdminId =>
          updateUsers udb previousAdminId (fun a =>
            { a with
              websiteId := none
              websiteAccess := a.websiteAccess.filter (fun x => x != website.id) })
        | none => udb
      .ok (udb1, updateWebsites wdb websiteId (fun w =>
        { w with assignedAdmin := none }))

-- ========================
-- Website controller: rooms
-- ========================

structure AddRoomPayload where
  name : String
  description : Option String := none
  maxOccupancy : Nat
  bedType : String
  size : Option Nat := none
  basePrice : Int
  mainImage : Option String := none
  discountPercentage : Option String := none
  discountPrice : Option Int := none
  detailImages : Option (List String) := none
  images : Option (List String) := none
  amenities : Option (List String) := none
  features : Option (List String) := none
  servicesIncluded : Option (List String) := none
  popularFacilities : Option (List String) := none
  isAvailable : Option Bool := none
deriving DecidableEq, Repr

/-- The addRoom controller: 404 when the website is absent, 400 when
more than 10 detail images are supplied (checked before the push), else
append the room and save. -/
def addRoom (db : List Website) (websiteId : DocId) (p : AddRoomPayload)
    (freshId : DocId) : Except CustomError (List Website × Room) :=
  match findWebsite db websiteId with
  | none => .error ⟨"Website not found", 404⟩
  | some _ =>
    if (match p.detailImages with
        | some l => decide (l.length > 10)
        | none => false) then
      .error ⟨"Maximum 10 detail images allowed", 400⟩
    else
      let room : Room := {
        id := freshId
        name := p.name
        description := p.description.getD ""
        maxOccupancy := p.maxOccupancy
        bedType := p.bedType
        size := p.size.getD 0
        basePrice := p.basePrice
        mainImage := p.mainImage.getD ""
        discountPercentage := p.discountPercentage.getD ""
        discountPrice := p.discountPrice.getD 0
        detailImages := p.detailImages.getD []
        images := p.images.getD []
        amenities := p.amenities.getD []
        features := p.features.getD []
        servicesIncluded := p.servicesIncluded.getD []
        popularFacilities := p.popularFacilities.getD []
        isAvailable := p.isAvailable.getD true }
      (.ok (updateWebsites db websiteId (fun w => { w with rooms := w.rooms ++ [room] }), room))

structure UpdateRoomPayload where
  name : Option String := none
  description : Option String := none
  maxOccupancy : Option Nat := none
  bedType : Option String := none
  size : Option Nat := none
  basePrice : Option Int := none
  mainImage : Option String := none
  discountPercentage : Option String := none
  discountPrice : Option Int := none
  detailImages : Option (List String) := none
  images : Option (List String) := none
  amenities : Option (List String) := none
  features : Option (List String) := none
  servicesIncluded : Option (List String) := none
  popularFacilities : Option (List String) := none
  isAvailable : Option Bool := none
deriving DecidableEq, Repr

/-- The updateRoom controller: 404 when website or room is absent; merge
only the provided fields; throw 400 when more than 10 detail images are
supplied, in which case save is never reached and the stored document
stays as it was (file-cleanup side effects are modelled only in the
operations whose claims observe them). -/
def updateRoom (db : List Website) (websiteId roomId : DocId)
    (p : UpdateRoomPayload) : Except CustomError (List Website × Room) :=
  match findWebsite db websiteId with
  | none => .error ⟨"Website not found", 404⟩
  | some website =>
    match website.rooms.find? (fun r => r.id == roomId) with
    | none => .error ⟨"Room not found", 404⟩
    | some room =>
      if (match p.detailImages with
          | some l => decide (l.length > 10)
          | none => false) then
        .error ⟨"Maximum 10 detail images allowed", 400⟩
      else
        let room1 : Room := {
          id := room.id
          name := p.name.getD room.name
          description := p.description.getD room.description
          maxOccupancy := p.maxOccupancy.getD room.maxOccupancy
          bedType := p.bedType.getD room.bedType
          size := p.size.getD room.size
          basePrice := p.basePrice.getD room.basePrice
          mainImage := p.mainImage.getD room.mainImage
          discountPercentage := p.discountPercentage.getD room.discountPercentage
          discountPrice := p.discountPrice.getD room.discountPrice
          detailImages := p.detailImages.getD room.detailImages
          images := p.images.getD room.images
          amenities := p.amenities.getD room.amenities
          features := p.features.getD room.features
          servicesIncluded := p.servicesIncluded.getD room.servicesIncluded
          popularFacilities := p.popularFacilities.getD room.popularFacilities
          isAvailable := p.isAvailable.getD room.isAvailable }
        let db1 := updateWebsites db websiteId (fun w =>
          { w with rooms := w.rooms.map (fun r => if r.id = roomId then room1 else r) })
        .ok (db1, room1)

-- ========================
-- Website controller: facilities
-- ========================

structure AddFacilityPayload where
  image : Option String := none
  title : Option String := none
  subTitle : Option String := none
deriving DecidableEq, Repr

/-- The addFacility controller: 404 when the website is absent, 400 when
the collection already holds 6 (or more) facilities, else append. -/
def addFacility (db : List Website) (websiteId : DocId)
    (p : AddFacilityPayload) (freshId : DocId) :
    Except CustomError (List Website × Facility) :=
  match findWebsite db websiteId with
  | none => .error ⟨"Website not found", 404⟩
  | some website =>
    if website.facilities.length ≥ 6 then
      .error ⟨"Maximum 6 facilities allowed", 400⟩
    else
      let facility : Facility := {
        id := freshId
        image := p.image.getD ""
        title := p.title.getD ""
        subTitle := p.subTitle.getD "" }
      let db1 := updateWebsites db websiteId (fun w =>
        { w with facilities := w.facilities ++ [facility] })
      .ok (db1, facility)

-- ========================
-- Website controller: hero sections (upsert by page)
-- ========================

structure HeroPayload where
  page : HeroPage
  image : Option String := none
  text : Option String := none
  subText : Option String := none
  detailsText : Option String := none
  isActive : Option Bool := none
deriving DecidableEq, Repr

/-- In-place update of an existing hero section: merge the provided
fields; when a new image value replaces a non-empty different old one,
the old image file is deleted. Returns the updated entry and the list
of deleted file paths. -/
def updateHero (h : HeroSection) (p : HeroPayload) : HeroSection × List String :=
  let deleted :=
    match p.image with
    | some img => if h.image ≠ "" ∧ h.image ≠ img then [h.image] else []
    | none => []
  ({ h with
      image := p.image.getD h.image
      text := p.text.getD h.text
      subText := p.subText.getD h.subText
      detailsText := p.detailsText.getD h.detailsText
      isActive := p.isActive.getD h.isActive }, deleted)

/-- A freshly created hero section (the create branch of the upsert). -/
def newHero (p : HeroPayload) (freshId : DocId) : HeroSection :=
  { id := freshId
    page := p.page
    image := p.image.getD ""
    text := p.text.getD ""
    subText := p.subText.getD ""
    detailsText := p.detailsText.getD ""
    isActive := p.isActive.getD true }

/-- Upsert over the heroSections sequence: update the first entry whose
page matches (findIndex semantics), else append a new entry. Also
returns the deleted file paths. -/
def upsertHeroList (p : HeroPayload) (freshId : DocId) :
    List HeroSection → List HeroSection × List String
  | [] => ([newHero p freshId], [])
  | h :: rest =>
    if h.page = p.page then
      ((updateHero h p).1 :: rest, (updateHero h p).2)
    else
      (h :: (upsertHeroList p freshId rest).1, (upsertHeroList p freshId rest).2)

/-- The upsertHeroSection controller: 404 when the website is absent,
else upsert by page and save. Returns the new store and the deleted
file paths. -/
def upsertHeroSection (db : List Website) (websiteId : DocId)
    (p : HeroPayload) (freshId : DocId) :
    Except CustomError (List Website × List String) :=
  match findWebsite db websiteId with
  | none => .error ⟨"Website not found", 404⟩
  | some website =>
    .ok (updateWebsites db websiteId
          (fun w => { w with heroSections := (upsertHeroList p freshId website.heroSections).1 }),
        (upsertHeroList p freshId website.heroSections).2)

-- ========================
-- Public read endpoint
-- ========================

/-- The public projection returned by getWebsiteByUniqueId, field for
field as assembled in the controller. -/
structure PublicProjection where
  uniqueId : String
  name : String
  domain : String
  theme : String
  settings : SiteConfig
  seo : Seo
  isActive : Bool
  hotelInfo : HotelInfo
  rooms : List Room
  heroSections : List HeroSection
  ourStory : OurStory
  facilities : List Facility
  reviews : List Review
  siteSettings : SiteSettings
  totalRooms : Nat
  totalFacilities : Nat
  averageRating : ℚ
deriving DecidableEq, Repr

/-- The public read: findOne by uniqueId requiring isActive, 404 when no
such active website exists, else the filtered projection with the
average rating computed on read (0 when there are no reviews). -/
def getWebsiteByUniqueId (db : List Website) (uid : String) :
    Except CustomError PublicProjection :=
  match db.find? (fun w => w.uniqueId == uid && w.isActive) with
  | none => .error ⟨"Website not found", 404⟩
  | some website =>
    .ok {
      uniqueId := website.uniqueId
      name := website.name
      domain := website.domain
      theme := website.theme
      settings := website.settings
      seo := website.seo
      isActive := website.isActive
      hotelInfo := website.hotelInfo
      rooms := website.rooms.filter (fun r => r.isAvailable)
      heroSections := website.heroSections.filter (fun h => h.isActive)
      ourStory := website.ourStory
      facilities := website.facilities
      reviews := website.reviews
      siteSettings := website.siteSettings
      totalRooms := (website.rooms.filter (fun r => r.isAvailable)).length
      totalFacilities := website.facilities.length
      averageRating :=
        if website.reviews.length > 0 then
          ((website.reviews.map Review.rating).sum) / (website.reviews.length : ℚ)
        else 0 }

-- ========================
-- User controller (getUsers / createUser)
-- ========================

/-- The getUsers controller: a super_admin caller is forced onto the
role=admin filter regardless of the query's role parameter; otherwise
the query's role filter applies. The isActive filter and the search
filter (regex modelled as case-insensitive substring match on name or
email) apply afterwards. The source additionally sorts by creation
date, a permutation no claim observes. -/
def getUsers (caller : Option User) (roleParam : Option Role)
    (isActiveParam : Option Bool) (searchParam : Option String)
    (db : List User) : List User :=
  let roleQ : Option Role :=
    if (caller.map User.role) = some Role.super_admin then some Role.admin
    else roleParam
  db.filter (fun u =>
    (match roleQ with
     | some r => decide (u.role = r)
     | none => true) &&
    (match isActiveParam with
     | some b => u.isActive == b
     | none => true) &&
    (match searchParam with
     | some s => u.name.toLower.containsSubstr s.toLower
                   || u.email.toLower.containsSubstr s.toLower
     | none => true))

structure CreateUserPayload where
  email : String
  password : String
  name : String
  role : Option Role := none
  websiteId : Option DocId := none
  websiteAccess : Option (List DocId) := none
  isActive : Option Bool := none
deriving DecidableEq, Repr

/-- The createUser controller: reject a duplicate email; a super_admin
caller always stores the new identity with role admin, any other caller
gets the requested role (defaulting to admin). -/
def createUser (caller : Option User) (db : List User)
    (p : CreateUserPayload) (freshId : DocId) :
    Except CustomError (List User × User) :=
  match findUserByEmail db p.email with
  | some _ => .error ⟨"User with this email already exists", 400⟩
  | none =>
    let userRole : Role :=
      if (caller.map User.role) = some Role.super_admin then Role.admin
      else p.role.getD Role.admin
    let user : User := {
      id := freshId
      email := p.email
      password := p.password
      name := p.name
      role := userRole
      websiteId := p.websiteId
      websiteAccess := p.websiteAccess.getD []
      isActive := p.isActive.getD true }
    .ok (db ++ [user], user)

-- ========================
-- File storage (src/utils/fileStorage.ts)
-- ========================

/-- Stand-in for the absolute public directory path PUBLIC_DIR. -/
def PUBLIC_DIR : String := "public"

/-- The file system, modelled at the interface boundary: the set of
existing file paths, plus the paths on which unlink raises an error. -/
structure FileSystem where
  files : List String
  failing : List String := []
deriving DecidableEq, Repr

def existsSync (fs : FileSystem) (p : String) : Bool :=
  fs.files.contains p

/-- fs.unlinkSync: fails on a failing path, otherwise removes the file. -/
def unlinkSync (fs : FileSystem) (p : String) : Except Unit FileSystem :=
  if fs.failing.contains p then .error ()
  else .ok { fs with files := fs.files.filter (fun q => q != p) }

def joinPath (a b : String) : String := a ++ "/" ++ b

/-- deleteImageFile: a no-op unless the stored URL starts with /public/;
otherwise resolve the path under PUBLIC_DIR and unlink it if it exists,
swallowing any file-system error (the source logs and returns). The
function is total: no error ever propagates to the caller. -/
def deleteImageFile (fs : FileSystem) (imageUrl : String) : FileSystem :=
  if imageUrl = "" then fs
  else if ¬ strStartsWith imageUrl "/public/" then fs
  else
    let relativePath := strDrop imageUrl 8
    let filePath := joinPath PUBLIC_DIR relativePath
    if existsSync fs filePath then
      match unlinkSync fs filePath with
      | .ok fs1 => fs1
      | .error _ => fs
    else fs

/-- deleteMultipleImageFiles: delete each URL in turn. -/
def deleteMultipleImageFiles (fs : FileSystem) (imageUrls : List String) : FileSystem :=
  imageUrls.foldl deleteImageFile fs

-- ========================
-- Store lemmas
-- ========================

/-- Looking a document up after an id-preserving in-place update of one
document: the lookup result is the original result with the update
applied when the ids coincide. -/
theorem find?_map_update {α : Type} (getId : α → DocId) (i j : DocId) (f : α → α)
    (hf : ∀ x, getId (f x) = getId x) :
    ∀ db : List α,
      (db.map (fun x => if getId x = i then f x else x)).find? (fun x => getId x == j) =
        (db.find? (fun x => getId x == j)).map (fun x => if getId x = i then f x else x) := by
  intro db
  induction db with
  | nil => rfl
  | cons a l ih =>
    by_cases haj : getId a = j
    · have hm : (getId (if getId a = i then f a else a) == j) = true := by
        split
        · simp [hf, haj]
        · simp [haj]
      rw [List.map_cons,
        List.find?_cons_of_pos (p := fun x => getId x == j) _ hm,
        List.find?_cons_of_pos (p := fun x => getId x == j) _ (by simp [haj])]
      simp
    · have hm : ¬ ((getId (if getId a = i then f a else a) == j) = true) := by
        split
        · simp [hf, haj]
        · simp [haj]
      rw [List.map_cons,
        List.find?_cons_of_neg (p := fun x => getId x == j) _ (by simpa using hm),
        List.find?_cons_of_neg (p := fun x => getId x == j) _ (by simp [haj])]
      exact ih

theorem findUser_updateUsers (db : List User) (i j : DocId) (f : User → User)
    (hf : ∀ u, (f u).id = u.id) :
    findUser (updateUsers db i f) j =
      (findUser db j).map (fun u => if u.id = i then f u else u) :=
  find?_map_update User.id i j f hf db

theorem findWebsite_updateWebsites (db : List Website) (i j : DocId) (f : Website → Website)
    (hf : ∀ w, (f w).id = w.id) :
    findWebsite (updateWebsites db i f) j =
      (findWebsite db j).map (fun w => if w.id = i then f w else w) :=
  find?_map_update Website.id i j f hf db

/-- A found user carries the id it was looked up by. -/
theorem findUser_id {db : List User} {i : DocId} {u : User}
    (h : findUser db i = some u) : u.id = i := by
  have := List.find?_some h
  simpa using this

/-- A found website carries the id it was looked up by. -/
theorem findWebsite_id {db : List Website} {i : DocId} {w : Website}
    (h : findWebsite db i = some w) : w.id = i := by
  have := List.find?_some h
  simpa using this

-- ========================
-- Concrete fixtures for witnesses and counterexamples
-- ========================

def emptyHotelInfo : HotelInfo :=
  { title := ""
    description := ""
    contact := { phone := "", email := "", address := "",
                 coordinates := { lat := 0, lng := 0 } }
    socialLinks := {}
    images := { banner := "", logo := "", gallery := [] }
    amenities := []
    nearbyAttractions := []
    transportLinks := [] }

def emptyStory : OurStory :=
  { title := "", subTitle := "", percentage := "", suites := "", images := [] }

def emptySiteSettings : SiteSettings :=
  { logo := "", footerLogo := "", footerDescription := "" }

def sampleWebsite : Website :=
  { id := 10
    uniqueId := "uid-10"
    name := "Grand Hotel"
    domain := "grand.example"
    hotelInfo := emptyHotelInfo
    ourStory := emptyStory
    siteSettings := emptySiteSettings
    settings := defaultSiteConfig
    seo := defaultSeo
    assignedAdmin := some 1 }

def sampleAdmin : User :=
  { id := 1
    email := "admin@example.com"
    password := "correct-password"
    role := Role.admin
    name := "Admin One"
    websiteId := some 10 }

-- ========================
-- C1: tenant-scope check
-- ========================

/-- C1: for every authenticated request with an attached identity, the
tenant-scope check passes for a super_admin whatever the target; passes
when no target tenant id was resolved; and for any other role with a
resolved target it fails 404 when the tenant is absent, fails 403 when
the tenant's assignedAdmin is absent or differs from the caller's id,
and passes exactly when the assignedAdmin equals the caller's id. -/
theorem c1_checkWebsiteAccess_spec (u : User) (wid : DocId) (db : List Website) :
    (u.role = Role.super_admin → ∀ t : Option DocId, checkWebsiteAccess (some u) t db = .next) ∧
    (checkWebsiteAccess (some u) none db = .next) ∧
    (u.role ≠ Role.super_admin → findWebsite db wid = none →
      checkWebsiteAccess (some u) (some wid) db = .halt 404 "Website not found") ∧
    (u.role ≠ Role.super_admin → ∀ website, findWebsite db wid = some website →
      ((website.assignedAdmin = none ∨ website.assignedAdmin ≠ some u.id) →
        checkWebsiteAccess (some u) (some wid) db =
          .halt 403 "You do not have access to this website") ∧
      (checkWebsiteAccess (some u) (some wid) db = .next ↔
        website.assignedAdmin = some u.id)) := by
  refine ⟨?_, ?_, ?_, ?_⟩
  · intro h t
    simp [checkWebsiteAccess, h]
  · by_cases h : u.role = Role.super_admin <;> simp [checkWebsiteAccess, h]
  · intro hrole hfind
    simp [checkWebsiteAccess, hrole, hfind]
  · intro hrole website hfind
    constructor
    · intro hadm
      rcases hadm with hnone | hne
      · simp [checkWebsiteAccess, hrole, hfind, hnone]
      · match hcase : website.assignedAdmin with
        | none => simp [checkWebsiteAccess, hrole, hfind, hcase]
        | some aid =>
          have haid : aid ≠ u.id := by
            intro hcontra
            exact hne (by rw [hcase, hcontra])
          simp [checkWebsiteAccess, hrole, hfind, hcase, haid]
    · match hcase : website.assignedAdmin with
      | none => simp [checkWebsiteAccess, hrole, hfind, hcase]
      | some aid =>
        by_cases haid : aid = u.id <;>
          simp [checkWebsiteAccess, hrole, hfind, hcase, haid]

/-- Witness for C1: a scoped admin who is the assignedAdmin of the
target tenant passes the check. -/
theorem c1_witness :
    checkWebsiteAccess (some sampleAdmin) (some 10) [sampleWebsite] = GateResult.next :=
  ((c1_checkWebsiteAccess_spec sampleAdmin 10 [sampleWebsite]).2.2.2 (by decide)
    sampleWebsite (by decide)).2.mpr (by decide)

-- ========================
-- C3: login for an unassigned admin
-- ========================

def unassignedAdmin : User :=
  { id := 3
    email := "b@example.com"
    password := "pw3"
    role := Role.admin
    name := "Admin B" }

/-- C3: a login with correct credentials by an active identity whose
role is admin and whose websiteId is unset fails with Forbidden (403)
and never yields a token pair. -/
theorem c3_login_admin_unassigned (db : List User) (email password : String) (user : User)
    (hfind : findUserByEmail db email = some user)
    (hactive : user.isActive = true)
    (hpw : comparePassword user password = true)
    (hrole : user.role = Role.admin)
    (hwid : user.websiteId = none) :
    login db email password =
      .error ⟨"Your account is not assigned to any website. Please contact the super admin.", 403⟩ ∧
    ∀ t : TokenPair, login db email password ≠ .ok t := by
  have hmain : login db email password =
      .error ⟨"Your account is not assigned to any website. Please contact the super admin.", 403⟩ := by
    simp [login, hfind, hactive, hpw, hrole, hwid]
  refine ⟨hmain, fun t hcontra => ?_⟩
  rw [hmain] at hcontra
  cases hcontra

/-- Witness for C3 at a concrete store and credentials. -/
theorem c3_witness :
    login [unassignedAdmin] "b@example.com" "pw3" =
      .error ⟨"Your account is not assigned to any website. Please contact the super admin.", 403⟩ :=
  (c3_login_admin_unassigned [unassignedAdmin] "b@example.com" "pw3" unassignedAdmin
    (by decide) (by decide) (by decide) (by decide) (by decide)).1

-- ========================
-- C4: authenticate on a deactivated identity
-- ========================

def sampleInactiveUser : User :=
  { id := 2
    email := "inactive@example.com"
    password := "pw2"
    role := Role.admin
    name := "Inactive"
    isActive := false }

/-- C4 counterexample: a request whose bearer credential verifies and
resolves to a deactivated identity is halted with status 403, not the
401 the claim requires. -/
theorem c4_counterexample :
    authenticate [sampleInactiveUser] (some "Bearer token")
        (fun _ => VerifyOutcome.payload { userId := 2, role := Role.admin }) =
      AuthResult.halt 403 "User account is deactivated" ∧ (403 : Nat) ≠ 401 := by
  exact ⟨by decide, by decide⟩

/-- C4 (amended): for every request whose bearer credential verifies and
resolves to an existing identity whose active flag is false, the
authenticate middleware halts with status 403 (Forbidden per the
response convention), message "User account is deactivated". -/
theorem c4_authenticate_deactivated (db : List User) (h token : String)
    (verify : String → VerifyOutcome) (pl : JwtPayload) (user : User)
    (hpre : strStartsWith h "Bearer " = true)
    (htok : (splitOnSpace h).get? 1 = some token)
    (hne : token ≠ "")
    (hver : verify token = .payload pl)
    (hfind : findUser db pl.userId = some user)
    (hinact : user.isActive = false) :
    authenticate db (some h) verify = .halt 403 "User account is deactivated" := by
  have htok2 : (splitOnSpace h)[1]? = some token := by
    simpa [List.get?_eq_getElem?] using htok
  simp [authenticate, hpre, htok2, hne, hver, hfind, hinact]

/-- Witness for C4's amended theorem at a concrete store and token. -/
theorem c4_witness :
    authenticate [sampleInactiveUser] (some "Bearer tok")
        (fun _ => VerifyOutcome.payload { userId := 2, role := Role.admin }) =
      AuthResult.halt 403 "User account is deactivated" :=
  c4_authenticate_deactivated [sampleInactiveUser] "Bearer tok" "tok"
    (fun _ => VerifyOutcome.payload { userId := 2, role := Role.admin })
    { userId := 2, role := Role.admin } sampleInactiveUser
    (by decide) (by decide) (by decide) (by decide) (by decide) (by decide)

-- ========================
-- C9: file cleanup safety
-- ========================

/-- C9: deleteImageFile is a no-op on any stored path that does not
start with /public/ (empty strings and /uploads/ paths included); it
removes a file only for /public/ paths; and a file-system error raised
by the unlink is swallowed, leaving the file system unchanged rather
than propagating (the function is total). -/
theorem c9_deleteImageFile_spec (fs : FileSystem) (p : String) :
    (strStartsWith p "/public/" = false → deleteImageFile fs p = fs) ∧
    ((deleteImageFile fs p).files ≠ fs.files → strStartsWith p "/public/" = true) ∧
    (joinPath PUBLIC_DIR (strDrop p 8) ∈ fs.failing → deleteImageFile fs p = fs) := by
  refine ⟨?_, ?_, ?_⟩
  · intro h
    by_cases hp : p = "" <;> simp [deleteImageFile, hp, h]
  · intro hne
    by_cases hs : strStartsWith p "/public/" = true
    · exact hs
    · exfalso
      apply hne
      have hfalse : strStartsWith p "/public/" = false := by
        cases hval : strStartsWith p "/public/"
        · rfl
        · exact absurd hval hs
      by_cases hp : p = "" <;> simp [deleteImageFile, hp, hfalse]
  · intro hfail
    by_cases hp : p = ""
    · simp [deleteImageFile, hp]
    · by_cases hs : strStartsWith p "/public/" = true
      · by_cases hex : existsSync fs (joinPath PUBLIC_DIR (strDrop p 8)) = true
        · simp [deleteImageFile, hp, hs, unlinkSync, hex, hfail]
        · simp [deleteImageFile, hp, hs, hex]
      · have hfalse : strStartsWith p "/public/" = false := by
          cases hval : strStartsWith p "/public/"
          · rfl
          · exact absurd hval hs
        simp [deleteImageFile, hp, hfalse]

/-- Witness for C9: an uploads-directory path is left untouched. -/
theorem c9_witness :
    deleteImageFile { files := ["public/a.webp"] } "/uploads/a.webp" =
      { files := ["public/a.webp"] } :=
  (c9_deleteImageFile_spec { files := ["public/a.webp"] } "/uploads/a.webp").1 (by decide)

-- ========================
-- C10: super_admin user management
-- ========================

def sampleSuperAdmin : User :=
  { id := 5
    email := "root@example.com"
    password := "rootpw"
    role := Role.super_admin
    name := "Root" }

/-- C10: with a super_admin caller, getUsers returns only identities
with role admin whatever the query's role filter asks for, and
createUser stores the new identity with role admin even when the
request asks for super_admin. -/
theorem c10_superAdmin_user_management (caller : User) (db : List User)
    (roleParam : Option Role) (isActiveParam : Option Bool) (searchParam : Option String)
    (p : CreateUserPayload) (freshId : DocId)
    (hrole : caller.role = Role.super_admin) :
    (∀ u ∈ getUsers (some caller) roleParam isActiveParam searchParam db,
      u.role = Role.admin) ∧
    (∀ db1 u, createUser (some caller) db p freshId = .ok (db1, u) →
      u.role = Role.admin ∧ u ∈ db1) := by
  constructor
  · intro u hu
    simp only [getUsers] at hu
    rw [(by simp [hrole] :
      (if Option.map User.role (some caller) = some Role.super_admin
        then some Role.admin else roleParam) = some Role.admin)] at hu
    have hpred := (List.mem_filter.mp hu).2
    simp only [Bool.and_eq_true, decide_eq_true_eq] at hpred
    exact hpred.1.1
  · intro db1 u h
    cases hfind : findUserByEmail db p.email with
    | some v =>
      rw [createUser, hfind] at h
      cases h
    | none =>
      rw [createUser, hfind] at h
      simp only [Option.map_some, hrole, if_pos rfl, Except.ok.injEq, Prod.mk.injEq] at h
      obtain ⟨hdb, hu⟩ := h
      subst hdb
      constructor
      · rw [← hu]
        simp [hrole]
      · rw [← hu]
        exact List.mem_append_right db (List.mem_singleton.mpr rfl)

def c10Payload : CreateUserPayload :=
  { email := "c@example.com"
    password := "pwc"
    name := "C"
    role := some Role.super_admin }

def c10Created : User :=
  { id := 7
    email := "c@example.com"
    password := "pwc"
    name := "C"
    role := Role.admin }

/-- Witness for C10: a super_admin asking to create a super_admin gets
an admin stored. -/
theorem c10_witness : c10Created.role = Role.admin ∧ c10Created ∈ [c10Created] :=
  (c10_superAdmin_user_management sampleSuperAdmin [] none none none c10Payload 7
    (by decide)).2 [c10Created] c10Created rfl

-- ========================
-- C5: public read projection
-- ========================

/-- C5: a public read by public identifier yields the same NotFound
error whether no tenant carries the identifier or every tenant carrying
it is inactive (no distinction); on success the projection holds
exactly the rooms with isAvailable, exactly the heroSections with
isActive, and an averageRating that is the arithmetic mean of all
review ratings, 0 when there are no reviews. -/
theorem c5_public_read_spec (db : List Website) (uid : String) :
    ((∀ w ∈ db, w.uniqueId = uid → w.isActive = false) →
      getWebsiteByUniqueId db uid = .error ⟨"Website not found", 404⟩) ∧
    (∀ w, db.find? (fun x => x.uniqueId == uid && x.isActive) = some w →
      ∃ proj, getWebsiteByUniqueId db uid = .ok proj ∧
        (∀ r, r ∈ proj.rooms ↔ r ∈ w.rooms ∧ r.isAvailable = true) ∧
        (∀ h, h ∈ proj.heroSections ↔ h ∈ w.heroSections ∧ h.isActive = true) ∧
        (w.reviews ≠ [] →
          proj.averageRating * (w.reviews.length : ℚ) = (w.reviews.map Review.rating).sum) ∧
        (w.reviews = [] → proj.averageRating = 0)) := by
  constructor
  · intro h
    have hnone : db.find? (fun x => x.uniqueId == uid && x.isActive) = none := by
      rw [List.find?_eq_none]
      intro x hx
      intro hcontra
      simp only [Bool.and_eq_true, beq_iff_eq] at hcontra
      rw [h x hx hcontra.1] at hcontra
      cases hcontra.2
    rw [getWebsiteByUniqueId, hnone]
  · intro w hfind
    refine ⟨_, by rw [getWebsiteByUniqueId, hfind], ?_, ?_, ?_, ?_⟩
    · intro r
      simp [List.mem_filter]
    · intro h
      simp [List.mem_filter]
    · intro hne
      have hlen : w.reviews.length > 0 := List.length_pos.mpr hne
      have hcast : (w.reviews.length : ℚ) ≠ 0 := by
        exact_mod_cast Nat.pos_iff_ne_zero.mp hlen
      simp only [hlen, if_pos]
      exact div_mul_cancel₀ _ hcast
    · intro hempty
      simp [hempty]

def sampleRoom (i : DocId) (avail : Bool) : Room :=
  { id := i
    name := "Room"
    description := ""
    maxOccupancy := 2
    bedType := "Double"
    size := 0
    basePrice := 100
    mainImage := ""
    discountPercentage := ""
    discountPrice := 0
    detailImages := []
    images := []
    amenities := []
    features := []
    servicesIncluded := []
    popularFacilities := []
    isAvailable := avail }

def publicWebsite : Website :=
  { id := 30
    uniqueId := "pub-30"
    name := "Pub Hotel"
    domain := "pub.example"
    hotelInfo := emptyHotelInfo
    ourStory := emptyStory
    siteSettings := emptySiteSettings
    settings := defaultSiteConfig
    seo := defaultSeo
    rooms := [sampleRoom 1 true, sampleRoom 2 false]
    reviews := [{ id := 1, avatar := "", name := "r1", review := "", rating := 4 },
                { id := 2, avatar := "", name := "r2", review := "", rating := 2 }] }

/-- Witness for C5: one available of two rooms is served and the
average of ratings 4 and 2 satisfies the mean equation. -/
theorem c5_witness :
    ∃ proj, getWebsiteByUniqueId [publicWebsite] "pub-30" = .ok proj ∧
      (∀ r, r ∈ proj.rooms ↔ r ∈ publicWebsite.rooms ∧ r.isAvailable = true) ∧
      (∀ h, h ∈ proj.heroSections ↔ h ∈ publicWebsite.heroSections ∧ h.isActive = true) ∧
      (publicWebsite.reviews ≠ [] →
        proj.averageRating * (publicWebsite.reviews.length : ℚ) =
          (publicWebsite.reviews.map Review.rating).sum) ∧
      (publicWebsite.reviews = [] → proj.averageRating = 0) :=
  (c5_public_read_spec [publicWebsite] "pub-30").2 publicWebsite (by decide)

-- ========================
-- C6: createWebsite defaults and the absent offer
-- ========================

/-- Searching an appended store when the front part has no match. -/
theorem find?_append_none {α : Type} (p : α → Bool) (l2 : List α) :
    ∀ l1 : List α, l1.find? p = none → (l1 ++ l2).find? p = l2.find? p := by
  intro l1
  induction l1 with
  | nil => intro _; rfl
  | cons a l ih =>
    intro h
    have ha : ¬ (p a = true) := by
      intro hcontra
      rw [List.find?_cons_of_pos _ hcontra] at h
      cases h
    have hl : l.find? p = none := by
      rwa [List.find?_cons_of_neg _ ha] at h
    rw [List.cons_append, List.find?_cons_of_neg _ ha]
    exact ih hl

def c6Payload : CreateWebsitePayload :=
  { name := "New Hotel", domain := "new.example" }

/-- C6 counterexample: creating a website on an empty store and reading
it back succeeds, but the returned document's offer object is absent
(none) rather than populated with a default, refuting the claim that
every embedded collection and embedded object (including the offer) is
populated. -/
theorem c6_counterexample :
    ((createWebsite [] c6Payload 5 "uid-5").map
      (fun r => (getWebsite r.1 5).map Website.offer)) = .ok (.ok none) := by
  rfl

/-- C6 (amended): createWebsite rejects a duplicate domain with 400;
otherwise it creates the aggregate with rooms, heroSections, facilities
and reviews populated as empty sequences and ourStory / siteSettings
populated with their empty defaults — but the offer object is left
absent (none) — and, under a fresh id, getWebsite returns exactly this
document. -/
theorem c6_createWebsite_defaults (db : List Website) (p : CreateWebsitePayload)
    (freshId : DocId) (freshUid : String)
    (hfresh : ∀ w ∈ db, w.id ≠ freshId) :
    ((∃ w ∈ db, w.domain = p.domain) →
      createWebsite db p freshId freshUid =
        .error ⟨"Website with this domain already exists", 400⟩) ∧
    ((∀ w ∈ db, w.domain ≠ p.domain) →
      ∃ db1 w, createWebsite db p freshId freshUid = .ok (db1, w) ∧
        getWebsite db1 freshId = .ok w ∧
        w.rooms = [] ∧ w.heroSections = [] ∧ w.facilities = [] ∧ w.reviews = [] ∧
        w.ourStory = emptyStory ∧ w.siteSettings = emptySiteSettings ∧
        w.offer = none) := by
  constructor
  · rintro ⟨w, hw, hdom⟩
    have hsome : (findWebsiteByDomain db p.domain).isSome = true := by
      rw [findWebsiteByDomain, List.find?_isSome]
      exact ⟨w, hw, by simp [hdom]⟩
    obtain ⟨v, hv⟩ := Option.isSome_iff_exists.mp hsome
    rw [createWebsite, hv]
  · intro hnodup
    have hnone : findWebsiteByDomain db p.domain = none := by
      rw [findWebsiteByDomain, List.find?_eq_none]
      intro x hx hcontra
      exact hnodup x hx (by simpa using hcontra)
    refine ⟨_, _, by rw [createWebsite, hnone], ?_, rfl, rfl, rfl, rfl, rfl, rfl, rfl⟩
    rw [getWebsite, findWebsite, find?_append_none]
    · simp
    · rw [List.find?_eq_none]
      intro x hx hcontra
      exact hfresh x hx (by simpa using hcontra)

/-- Witness for C6's amended theorem on an empty store. -/
theorem c6_witness :
    ∃ db1 w, createWebsite [] c6Payload 5 "uid-5" = .ok (db1, w) ∧
      getWebsite db1 5 = .ok w ∧
      w.rooms = [] ∧ w.heroSections = [] ∧ w.facilities = [] ∧ w.reviews = [] ∧
      w.ourStory = emptyStory ∧ w.siteSettings = emptySiteSettings ∧
      w.offer = none :=
  (c6_createWebsite_defaults [] c6Payload 5 "uid-5" (by simp)).2 (by simp)

-- ========================
-- C7: collection size caps
-- ========================

/-- C7: with the target website loaded, adding a facility fails with 400
when the collection already holds 6 entries and succeeds when it holds
at most 5 (reaching exactly 6); and adding or updating a room with more
than 10 detail images fails with 400 — the error is thrown before save,
so the stored tenant document is unchanged (an error result carries no
new store in this model). -/
theorem c7_collection_caps (db : List Website) (wid : DocId) (w : Website)
    (pf : AddFacilityPayload) (pr : AddRoomPayload) (pu : UpdateRoomPayload)
    (fidF fidR roomId : DocId)
    (hW : findWebsite db wid = some w) :
    (w.facilities.length = 6 →
      addFacility db wid pf fidF = .error ⟨"Maximum 6 facilities allowed", 400⟩) ∧
    (w.facilities.length ≤ 5 →
      ∃ db1 f, addFacility db wid pf fidF = .ok (db1, f) ∧
        (findWebsite db1 wid).map (fun x => x.facilities.length) =
          some (w.facilities.length + 1)) ∧
    (∀ l, pr.detailImages = some l → l.length > 10 →
      addRoom db wid pr fidR = .error ⟨"Maximum 10 detail images allowed", 400⟩) ∧
    (∀ r l, w.rooms.find? (fun x => x.id == roomId) = some r →
      pu.detailImages = some l → l.length > 10 →
      updateRoom db wid roomId pu = .error ⟨"Maximum 10 detail images allowed", 400⟩) := by
  refine ⟨?_, ?_, ?_, ?_⟩
  · intro h6
    simp [addFacility, hW, h6]
  · intro h5
    have hlt : ¬ (w.facilities.length ≥ 6) := by omega
    have h1 : addFacility db wid pf fidF =
        .ok (updateWebsites db wid (fun x => { x with facilities := x.facilities ++
            [{ id := fidF, image := pf.image.getD "", title := pf.title.getD "",
               subTitle := pf.subTitle.getD "" }] }),
          { id := fidF, image := pf.image.getD "", title := pf.title.getD "",
            subTitle := pf.subTitle.getD "" }) := by
      simp only [addFacility, hW]
      rw [if_neg hlt]
    refine ⟨_, _, h1, ?_⟩
    rw [findWebsite_updateWebsites db wid wid
      (fun x => { x with facilities := x.facilities ++
          [{ id := fidF, image := pf.image.getD "", title := pf.title.getD "",
             subTitle := pf.subTitle.getD "" }] })
      (fun x => rfl), hW]
    have hid : w.id = wid := findWebsite_id hW
    simp [hid]
  · intro l hdet hlen
    simp [addRoom, hW, hdet, hlen]
  · intro r l hr hdet hlen
    simp [updateRoom, hW, hr, hdet, hlen]

def sampleFacility (i : DocId) : Facility :=
  { id := i, image := "", title := "", subTitle := "" }

def fullFacilityWebsite : Website :=
  { id := 20
    uniqueId := "uid-20"
    name := "Full Hotel"
    domain := "full.example"
    hotelInfo := emptyHotelInfo
    ourStory := emptyStory
    siteSettings := emptySiteSettings
    settings := defaultSiteConfig
    seo := defaultSeo
    facilities := [sampleFacility 1, sampleFacility 2, sampleFacility 3,
                   sampleFacility 4, sampleFacility 5, sampleFacility 6] }

/-- Witness for C7: the seventh facility is rejected with 400. -/
theorem c7_witness :
    addFacility [fullFacilityWebsite] 20 {} 99 =
      .error ⟨"Maximum 6 facilities allowed", 400⟩ :=
  (c7_collection_caps [fullFacilityWebsite] 20 fullFacilityWebsite {}
    { name := "R", maxOccupancy := 2, bedType := "Double", basePrice := 1 } {} 99 98 97
    (by decide)).1 (by decide)

-- ========================
-- C2: assignAdmin and the bidirectional reference
-- ========================

def adminA : User :=
  { id := 1
    email := "a@x.com"
    password := "pa"
    role := Role.admin
    name := "A" }

def adminB : User :=
  { id := 2
    email := "b@x.com"
    password := "pb"
    role := Role.admin
    name := "B" }

def tenantT : Website :=
  { id := 10
    uniqueId := "t-10"
    name := "Tenant T"
    domain := "t.example"
    hotelInfo := emptyHotelInfo
    ourStory := emptyStory
    siteSettings := emptySiteSettings
    settings := defaultSiteConfig
    seo := defaultSeo }

/-- C2 counterexample: assignAdmin(T, A) then assignAdmin(T, B) leaves
A's websiteId still pointing at T (some 10), not cleared to none as the
claim requires. -/
theorem c2_counterexample :
    ((assignAdmin [adminA, adminB] [tenantT] 10 (some 1)).toOption.bind (fun r =>
        (assignAdmin r.1 r.2 10 (some 2)).toOption.map (fun r2 =>
          (findUser r2.1 1).map User.websiteId))) = some (some (some 10)) ∧
    some (some (some (10 : DocId))) ≠ some (some (none : Option DocId)) := by
  exact ⟨rfl, by decide⟩

/-- C2 (amended): after assignAdmin(T, A) succeeds, T.assignedAdmin is
A's id and A.websiteId is T's id; after a subsequent assignAdmin(T, B),
B.websiteId is T's id and T.assignedAdmin is B's id, but the old
admin's back-reference is NOT cleared: A.websiteId still equals T's id
(the previous admin is cleared only by an assignAdmin call that passes
no admin id). -/
theorem c2_assignAdmin_reassign (udb : List User) (wdb : List Website)
    (tid aid bid : DocId) (T : Website) (A B : User)
    (hT : findWebsite wdb tid = some T)
    (hA : findUser udb aid = some A) (hAr : A.role = Role.admin)
    (hB : findUser udb bid = some B) (hBr : B.role = Role.admin)
    (hne : aid ≠ bid) :
    ∃ udb1 wdb1 udb2 wdb2,
      assignAdmin udb wdb tid (some aid) = .ok (udb1, wdb1) ∧
      (findWebsite wdb1 tid).map Website.assignedAdmin = some (some aid) ∧
      (findUser udb1 aid).map User.websiteId = some (some tid) ∧
      assignAdmin udb1 wdb1 tid (some bid) = .ok (udb2, wdb2) ∧
      (findWebsite wdb2 tid).map Website.assignedAdmin = some (some bid) ∧
      (findUser udb2 bid).map User.websiteId = some (some tid) ∧
      (findUser udb2 aid).map User.websiteId = some (some tid) := by
  have hTid : T.id = tid := findWebsite_id hT
  have hAid : A.id = aid := findUser_id hA
  have hBid : B.id = bid := findUser_id hB
  have h1 : assignAdmin udb wdb tid (some aid) =
      .ok (updateUsers udb aid (assignUserUpdate T.id),
           updateWebsites wdb tid (assignWebsiteUpdate aid)) := by
    simp only [assignAdmin, hT, hA]
    rw [if_neg (by simp [hAr])]
  have hT1 : findWebsite (updateWebsites wdb tid (assignWebsiteUpdate aid)) tid =
      some (assignWebsiteUpdate aid T) := by
    rw [findWebsite_updateWebsites wdb tid tid (assignWebsiteUpdate aid) (fun x => rfl), hT]
    simp [hTid]
  have hA1 : findUser (updateUsers udb aid (assignUserUpdate T.id)) aid =
      some (assignUserUpdate T.id A) := by
    rw [findUser_updateUsers udb aid aid (assignUserUpdate T.id) (fun x => rfl), hA]
    simp [hAid]
  have hB1 : findUser (updateUsers udb aid (assignUserUpdate T.id)) bid = some B := by
    rw [findUser_updateUsers udb aid bid (assignUserUpdate T.id) (fun x => rfl), hB]
    simp [hBid, Ne.symm hne]
  have h2 : assignAdmin (updateUsers udb aid (assignUserUpdate T.id))
      (updateWebsites wdb tid (assignWebsiteUpdate aid)) tid (some bid) =
      .ok (updateUsers (updateUsers udb aid (assignUserUpdate T.id)) bid
            (assignUserUpdate T.id),
           updateWebsites (updateWebsites wdb tid (assignWebsiteUpdate aid)) tid
            (assignWebsiteUpdate bid)) := by
    simp only [assignAdmin, hT1, hB1]
    rw [if_neg (by simp [hBr])]
    rfl
  refine ⟨_, _, _, _, h1, ?_, ?_, h2, ?_, ?_, ?_⟩
  · rw [hT1]
    simp [assignWebsiteUpdate]
  · rw [hA1]
    simp [assignUserUpdate, hTid]
  · rw [findWebsite_updateWebsites _ tid tid (assignWebsiteUpdate bid) (fun x => rfl), hT1]
    simp [assignWebsiteUpdate, hTid]
  · rw [findUser_updateUsers _ bid bid (assignUserUpdate T.id) (fun x => rfl), hB1]
    simp [assignUserUpdate, hBid, hTid]
  · rw [findUser_updateUsers _ bid aid (assignUserUpdate T.id) (fun x => rfl), hA1]
    simp [assignUserUpdate, hAid, hne, hTid]

/-- Witness for C2's amended theorem at a concrete two-admin store. -/
theorem c2_witness :
    ∃ udb1 wdb1 udb2 wdb2,
      assignAdmin [adminA, adminB] [tenantT] 10 (some 1) = .ok (udb1, wdb1) ∧
      (findWebsite wdb1 10).map Website.assignedAdmin = some (some 1) ∧
      (findUser udb1 1).map User.websiteId = some (some 10) ∧
      assignAdmin udb1 wdb1 10 (some 2) = .ok (udb2, wdb2) ∧
      (findWebsite wdb2 10).map Website.assignedAdmin = some (some 2) ∧
      (findUser udb2 2).map User.websiteId = some (some 10) ∧
      (findUser udb2 1).map User.websiteId = some (some 10) :=
  c2_assignAdmin_reassign [adminA, adminB] [tenantT] 10 1 2 tenantT adminA adminB
    (by decide) (by decide) (by decide) (by decide) (by decide) (by decide)

-- ========================
-- C8: hero-section upsert idempotence
-- ========================

theorem updateHero_page (h : HeroSection) (p : HeroPayload) :
    (updateHero h p).1.page = h.page := rfl

/-- Re-applying the same payload to an already-updated hero section
changes nothing and deletes no file. -/
theorem updateHero_self (h : HeroSection) (p : HeroPayload) :
    updateHero (updateHero h p).1 p = ((updateHero h p).1, []) := by
  obtain ⟨pg, i, t, s, d, a⟩ := p
  cases i <;> cases t <;> cases s <;> cases d <;> cases a <;>
    simp [updateHero]

/-- Applying the payload to the entry freshly created from it changes
nothing and deletes no file. -/
theorem updateHero_newHero (p : HeroPayload) (fid : DocId) :
    updateHero (newHero p fid) p = (newHero p fid, []) := by
  obtain ⟨pg, i, t, s, d, a⟩ := p
  cases i <;> cases t <;> cases s <;> cases d <;> cases a <;>
    simp [updateHero, newHero]

/-- Core upsert idempotence on the heroSections sequence: when the
sequence holds at most one entry for the payload's page, a second
identical upsert returns the sequence unchanged with no deletions, and
after the first upsert exactly one entry holds the page. -/
theorem upsertHeroList_idem (p : HeroPayload) (fid1 fid2 : DocId) :
    ∀ hs : List HeroSection,
      hs.countP (fun h => decide (h.page = p.page)) ≤ 1 →
      upsertHeroList p fid2 (upsertHeroList p fid1 hs).1 =
        ((upsertHeroList p fid1 hs).1, []) ∧
      (upsertHeroList p fid1 hs).1.countP (fun h => decide (h.page = p.page)) = 1 := by
  intro hs
  induction hs with
  | nil =>
    intro _
    have hpg : (newHero p fid1).page = p.page := rfl
    constructor
    · simp [upsertHeroList, hpg, updateHero_newHero]
    · simp [upsertHeroList, List.countP_cons, hpg]
  | cons h rest ih =>
    intro hcount
    by_cases hpg : h.page = p.page
    · have hcnt0 : rest.countP (fun x => decide (x.page = p.page)) = 0 := by
        rw [List.countP_cons] at hcount
        simp [hpg] at hcount
        simpa using hcount
      constructor
      · have hpg1 : (updateHero h p).1.page = p.page := by
          rw [updateHero_page]
          exact hpg
        simp [upsertHeroList, hpg, hpg1, updateHero_self]
      · simp [upsertHeroList, hpg, List.countP_cons, updateHero_page, hcnt0]
    · have hcnt : rest.countP (fun x => decide (x.page = p.page)) ≤ 1 := by
        rw [List.countP_cons] at hcount
        simp [hpg] at hcount
        omega
      obtain ⟨hsecond, hone⟩ := ih hcnt
      constructor
      · simp [upsertHeroList, hpg, hsecond]
      · simp [upsertHeroList, hpg, List.countP_cons, hone]

/-- Re-saving a website with the same embedded update is a no-op. -/
theorem updateWebsites_idem (db : List Website) (i : DocId) (f : Website → Website)
    (hf : ∀ w, (f w).id = w.id) (hff : ∀ w, f (f w) = f w) :
    updateWebsites (updateWebsites db i f) i f = updateWebsites db i f := by
  unfold updateWebsites
  rw [List.map_map]
  have hg : ((fun w => if w.id = i then f w else w) ∘ (fun w => if w.id = i then f w else w)) =
      (fun w => if w.id = i then f w else w) := by
    funext x
    by_cases hx : x.id = i
    · simp [hx, hf, hff]
    · simp [hx]
  rw [hg]

/-- C8: with the target website loaded and at most one existing entry
for the page (the upsert-by-key invariant), two upsertHeroSection calls
with the identical payload leave exactly one entry for that page, the
state after the second call equals the state after the first, and the
second call deletes no image file. -/
theorem c8_upsertHero_idempotent (db : List Website) (wid : DocId) (w : Website)
    (p : HeroPayload) (fid1 fid2 : DocId)
    (hW : findWebsite db wid = some w)
    (hcount : w.heroSections.countP (fun h => decide (h.page = p.page)) ≤ 1) :
    ∃ db1 deleted1,
      upsertHeroSection db wid p fid1 = .ok (db1, deleted1) ∧
      upsertHeroSection db1 wid p fid2 = .ok (db1, []) ∧
      (findWebsite db1 wid).map
        (fun x => x.heroSections.countP (fun h => decide (h.page = p.page))) = some 1 := by
  obtain ⟨hidem, hone⟩ := upsertHeroList_idem p fid1 fid2 w.heroSections hcount
  have hid : w.id = wid := findWebsite_id hW
  have h1 : upsertHeroSection db wid p fid1 =
      .ok (updateWebsites db wid
            (fun x => { x with heroSections := (upsertHeroList p fid1 w.heroSections).1 }),
          (upsertHeroList p fid1 w.heroSections).2) := by
    simp only [upsertHeroSection, hW]
  have hW1 : findWebsite (updateWebsites db wid
      (fun x => { x with heroSections := (upsertHeroList p fid1 w.heroSections).1 })) wid =
      some { w with heroSections := (upsertHeroList p fid1 w.heroSections).1 } := by
    rw [findWebsite_updateWebsites db wid wid
      (fun x => { x with heroSections := (upsertHeroList p fid1 w.heroSections).1 })
      (fun x => rfl), hW]
    simp [hid]
  have h2 : upsertHeroSection (updateWebsites db wid
      (fun x => { x with heroSections := (upsertHeroList p fid1 w.heroSections).1 })) wid p fid2 =
      .ok (updateWebsites db wid
            (fun x => { x with heroSections := (upsertHeroList p fid1 w.heroSections).1 }), []) := by
    simp only [upsertHeroSection, hW1, hidem]
    rw [updateWebsites_idem db wid
      (fun x => { x with heroSections := (upsertHeroList p fid1 w.heroSections).1 })
      (fun x => rfl) (fun x => rfl)]
  refine ⟨_, _, h1, h2, ?_⟩
  rw [hW1]
  simpa using hone

def heroP : HeroPayload :=
  { page := HeroPage.home, image := some "/public/hero.webp" }

/-- Witness for C8 at a concrete store with no prior hero sections. -/
theorem c8_witness :
    ∃ db1 deleted1,
      upsertHeroSection [sampleWebsite] 10 heroP 77 = .ok (db1, deleted1) ∧
      upsertHeroSection db1 10 heroP 78 = .ok (db1, []) ∧
      (findWebsite db1 10).map
        (fun x => x.heroSections.countP (fun h => decide (h.page = heroP.page))) = some 1 :=
  c8_upsertHero_idempotent [sampleWebsite] 10 sampleWebsite heroP 77 78
    (by decide) (by decide)
